import Mathlib

/-!
Verification development for the feedback-flow SaaS data layer.

The repository expresses its data model and access control as Postgres
tables with row-level-security (RLS) policies, SQL helper functions and
triggers, plus a thin TypeScript client and Deno serverless functions.
This file shallowly embeds those parts as executable Lean definitions:

* SQL `NULL`-able columns become `Option`; SQL equality in policy
  predicates uses SQL three-valued semantics (a comparison with `NULL`
  is `UNKNOWN`, which a policy treats as "row not visible"), embedded
  here as `sqlEq` returning `false` when either side is `none`.
* Permissive RLS policies of the same command are OR-ed together, so a
  table's final visibility predicate is the disjunction of the policies
  that survive all migrations.
* plpgsql functions and client handlers become pure functions over
  explicit state; timestamps are `Int`, uuids are `Nat`.
-/

namespace FFG

/-- SQL equality between two nullable values inside a policy `USING` or
`WITH CHECK` clause: `NULL = x` is `UNKNOWN`, which filters the row out,
so it is embedded as `false`. -/
def sqlEq {α : Type} [BEq α] : Option α → Option α → Bool
  | some a, some b => a == b
  | _, _ => false

/-- Postgres `trim(x)`: strip leading and trailing space characters
(`btrim` with the default character set, i.e. only `' '`). -/
def pgTrim (s : String) : String :=
  String.mk (((s.toList.dropWhile (fun c => c == ' ')).reverse.dropWhile
    (fun c => c == ' ')).reverse)

/-- A row of `public.profiles` (attributes relevant to authorization):
`role` is one of admin/manager/staff/user, `branch_id` is nullable. -/
structure Profile where
  id : Nat
  user_id : Nat
  email : Option String
  role : String
  branch_id : Option Nat
  deriving Repr, DecidableEq

/-- `public.get_user_role(auth.uid())`: the role of the profile whose
`user_id` equals the authenticated uid, `NULL` when there is none or the
request is anonymous. -/
def getUserRole (profiles : List Profile) (uid : Option Nat) : Option String :=
  (profiles.find? (fun p => sqlEq (some p.user_id) uid)).map (·.role)

/-- `public.get_user_branch(auth.uid())`: the branch of the caller's
profile, `NULL` when absent. -/
def getUserBranch (profiles : List Profile) (uid : Option Nat) : Option Nat :=
  (profiles.find? (fun p => sqlEq (some p.user_id) uid)).bind (·.branch_id)

/-- `x IN (SELECT id FROM profiles WHERE user_id = auth.uid())` for a
nullable column `x` (used by the assigned-staff policies). -/
def assignedToUser (profiles : List Profile) (uid : Option Nat)
    (assigned : Option Nat) : Bool :=
  profiles.any fun p => sqlEq (some p.user_id) uid && assigned == some p.id

/-- A row of `public.feedback`. -/
structure FeedbackRow where
  id : Nat
  customer_name : Option String
  customer_email : Option String
  customer_phone : Option String
  category_id : Option Nat
  branch_id : Option Nat
  rating : Int
  subject : String
  message : String
  status : String
  priority : String
  is_anonymous : Bool
  assigned_to : Option Nat
  resolved_at : Option Int
  created_at : Int
  updated_at : Int
  deriving Repr, DecidableEq

/-- The SELECT policies on `public.feedback` that survive the migration
history, OR-ed per RLS semantics:
* "Admins can view all feedback with customer info" —
  `get_user_role(auth.uid()) = 'admin'`;
* "Managers can view branch feedback with customer info" —
  `get_user_role(auth.uid()) = 'manager' AND branch_id = get_user_branch(auth.uid())`;
* "Assigned staff can view their feedback with customer info" —
  `assigned_to IN (SELECT id FROM profiles WHERE user_id = auth.uid())`;
* "Staff can view limited feedback info" —
  `get_user_role(auth.uid()) = 'staff'` (no branch filter, no masking). -/
def canSelectFeedback (profiles : List Profile) (uid : Option Nat)
    (f : FeedbackRow) : Bool :=
  getUserRole profiles uid == some "admin"
  || (getUserRole profiles uid == some "manager"
      && sqlEq f.branch_id (getUserBranch profiles uid))
  || assignedToUser profiles uid f.assigned_to
  || getUserRole profiles uid == some "staff"

/-- Policy "Assigned staff can update their feedback" (the only UPDATE
policy on `public.feedback`): `assigned_to IN (SELECT id FROM profiles
WHERE user_id = auth.uid()) OR get_user_role(auth.uid()) IN
('admin','manager')`. -/
def canUpdateFeedback (profiles : List Profile) (uid : Option Nat)
    (f : FeedbackRow) : Bool :=
  assignedToUser profiles uid f.assigned_to
  || getUserRole profiles uid == some "admin"
  || getUserRole profiles uid == some "manager"

/-- A direct `SELECT * FROM feedback` as issued by the client components:
RLS filters rows by the SELECT policies but cannot mask columns, so every
visible row is returned in full. -/
def directFeedbackRead (profiles : List Profile) (uid : Option Nat)
    (rows : List FeedbackRow) : List FeedbackRow :=
  rows.filter (canSelectFeedback profiles uid)

/-- The masking applied to one row inside `public.get_feedback_for_staff`
for a caller with role `staff`: assigned rows keep the customer fields,
otherwise email/phone become `NULL` and the name becomes `NULL` when
`is_anonymous`, else the literal `'Customer'`. -/
def maskForStaff (profiles : List Profile) (uid : Option Nat)
    (f : FeedbackRow) : FeedbackRow :=
  if assignedToUser profiles uid f.assigned_to then f
  else
    { f with
      customer_name := if f.is_anonymous then none else some "Customer"
      customer_email := none
      customer_phone := none }

/-- `public.get_feedback_for_staff()` (SECURITY DEFINER): admins get all
rows, managers the rows of their branch, staff all rows with
`maskForStaff` applied, everyone else an empty result. -/
def get_feedback_for_staff (profiles : List Profile) (uid : Option Nat)
    (rows : List FeedbackRow) : List FeedbackRow :=
  match getUserRole profiles uid with
  | some r =>
    if r = "admin" then rows
    else if r = "manager" then
      rows.filter (fun f => sqlEq f.branch_id (getUserBranch profiles uid))
    else if r = "staff" then rows.map (maskForStaff profiles uid)
    else []
  | none => []

/-- Sample staff profile: role `staff`, assigned to branch 1,
authenticated uid 20, profile id 2. -/
def staffProfile : Profile :=
  { id := 2, user_id := 20, email := some "staff@example.com"
    role := "staff", branch_id := some 1 }

/-- Sample feedback row owned by branch 9 (not the staff member's
branch), unassigned, with non-anonymous customer contact data. -/
def crossBranchRow : FeedbackRow :=
  { id := 50, customer_name := some "Alice", customer_email := some "a@b.com"
    customer_phone := some "555-0100", category_id := none, branch_id := some 9
    rating := 2, subject := "Bad service", message := "Very slow"
    status := "pending", priority := "medium", is_anonymous := false
    assigned_to := none, resolved_at := none, created_at := 0, updated_at := 0 }

/-! ## Public write path: `feedback` INSERT validation -/

/-- Character class `[A-Za-z0-9._%+-]` of the local part of the email
regularity check in `public.validate_email_format`. -/
def isLocalChar (c : Char) : Bool :=
  c.isAlpha || c.isDigit || c == '.' || c == '_' || c == '%' || c == '+' || c == '-'

/-- Character class `[A-Za-z0-9.-]` of the domain part. -/
def isDomainChar (c : Char) : Bool :=
  c.isAlpha || c.isDigit || c == '.' || c == '-'

/-- The part of the pattern after the `@`: one or more domain characters,
then a dot, then at least two letters, anchored at the end.  Because the
final letter block may contain no dot, a match exists exactly when the
maximal trailing letter run has length at least two, is preceded by a
dot, and everything before that dot is a non-empty domain-character
string. -/
def domainShapeOk (l : List Char) : Bool :=
  let rev := l.reverse
  let tld := rev.takeWhile (fun c => c.isAlpha)
  decide (2 ≤ tld.length) &&
    (match rev.drop tld.length with
     | '.' :: before => !before.isEmpty && before.all isDomainChar
     | _ => false)

/-- `public.validate_email_format(email)`: the plpgsql regularity check
anchored on both sides, one or more local characters, an `@`, then the
domain shape.  Local and domain classes exclude `@`, so the split is at
the first `@`. -/
def validate_email_format (email : String) : Bool :=
  match email.toList.span (fun c => c != '@') with
  | (localPart, '@' :: domain) =>
      !localPart.isEmpty && localPart.all isLocalChar && domainShapeOk domain
  | _ => false

/-- An INSERT payload for `public.feedback` as a client may send it
(`subject`/`message` modelled nullable because the policy tests
`IS NOT NULL`; the table defaults never apply to the fields below since
the public form always sends them). -/
structure FeedbackInsert where
  subject : Option String
  message : Option String
  rating : Int
  category_id : Option Nat
  branch_id : Option Nat
  customer_name : Option String
  customer_email : Option String
  customer_phone : Option String
  status : String
  priority : String
  is_anonymous : Bool
  deriving Repr, DecidableEq

/-- The final version of policy "Public can create validated feedback"
(`WITH CHECK`): subject and message present with non-empty trimmed text,
`rating` between 1 and 5, raw lengths capped at 200/2000, and each
optional customer field either `NULL` or non-blank after trimming with
the trimmed name/phone capped at 100/20 characters and the email matching
`validate_email_format`. -/
def feedbackInsertPolicy (p : FeedbackInsert) : Bool :=
  (match p.subject with
   | some s => decide (0 < (pgTrim s).length)
   | none => false) &&
  (match p.message with
   | some m => decide (0 < (pgTrim m).length)
   | none => false) &&
  decide (1 ≤ p.rating) && decide (p.rating ≤ 5) &&
  (match p.message with
   | some m => decide (m.length ≤ 2000)
   | none => false) &&
  (match p.subject with
   | some s => decide (s.length ≤ 200)
   | none => false) &&
  (match p.customer_name with
   | none => true
   | some s => decide (0 < (pgTrim s).length) && decide ((pgTrim s).length ≤ 100)) &&
  (match p.customer_email with
   | none => true
   | some e => decide (0 < (pgTrim e).length) && validate_email_format e) &&
  (match p.customer_phone with
   | none => true
   | some s => decide (0 < (pgTrim s).length) && decide ((pgTrim s).length ≤ 20))

/-- `CHECK (status IN ('pending','in_progress','resolved','closed'))` on
`public.feedback`. -/
def validFeedbackStatus (s : String) : Bool :=
  s == "pending" || s == "in_progress" || s == "resolved" || s == "closed"

/-- `CHECK (priority IN ('low','medium','high','urgent'))` on
`public.feedback`. -/
def validFeedbackPriority (s : String) : Bool :=
  s == "low" || s == "medium" || s == "high" || s == "urgent"

/-- The whole insert boundary for an unauthenticated feedback creation:
the RLS `WITH CHECK` policy plus the table CHECK constraints (the rating
CHECK repeats a policy conjunct). -/
def publicFeedbackInsertAccepted (p : FeedbackInsert) : Bool :=
  feedbackInsertPolicy p && validFeedbackStatus p.status
    && validFeedbackPriority p.priority

/-- The payload built by `handleSubmit` in the public form
(`src/pages/Feedback.tsx`): empty form strings coerce to `NULL` via
`x || null`, `status`/`priority` are fixed, and
`is_anonymous := !(formData.get('name'))`. -/
def handleSubmitPayload (subject message : String) (rating : Int)
    (category : Option Nat) (branch : Option Nat)
    (name email phone : String) : FeedbackInsert :=
  { subject := some subject
    message := some message
    rating := rating
    category_id := category
    branch_id := branch
    customer_name := if name = "" then none else some name
    customer_email := if email = "" then none else some email
    customer_phone := if phone = "" then none else some phone
    status := "pending"
    priority := "medium"
    is_anonymous := decide (name = "") }

/-- Acceptance condition exactly as the claim words it (spec §4.4), for
comparison with the condition implemented by the policy: rating in
[1,5], subject non-empty with at most 200 characters, message non-empty
with at most 2000 characters, a supplied email matching the pattern, a
supplied name/phone of at most 100/20 characters. -/
def claimedFeedbackAcceptance (p : FeedbackInsert) : Bool :=
  (match p.subject with
   | some s => decide (s ≠ "") && decide (s.length ≤ 200)
   | none => false) &&
  (match p.message with
   | some m => decide (m ≠ "") && decide (m.length ≤ 2000)
   | none => false) &&
  decide (1 ≤ p.rating) && decide (p.rating ≤ 5) &&
  (match p.customer_email with
   | none => true
   | some e => validate_email_format e) &&
  (match p.customer_name with
   | none => true
   | some s => decide (s.length ≤ 100)) &&
  (match p.customer_phone with
   | none => true
   | some s => decide (s.length ≤ 20))

/-- A minimal well-formed public submission with the given rating and no
customer fields. -/
def ratingProbe (r : Int) : FeedbackInsert :=
  { subject := some "Service", message := some "Details about my visit"
    rating := r, category_id := none, branch_id := none
    customer_name := none, customer_email := none, customer_phone := none
    status := "pending", priority := "medium", is_anonymous := true }

/-- A submission whose customer_name is two spaces: every condition the
claim lists holds (name length 2 is at most 100), yet the policy rejects
it because the trimmed name is empty. -/
def blankNamePayload : FeedbackInsert :=
  { ratingProbe 3 with customer_name := some "  ", is_anonymous := false }

/-! ## Subscribers: client-side writability of billing state -/

/-- The authentication context of a request: `auth.uid()` and
`auth.email()`, both `NULL` for the service-role key used by the
serverless billing functions. -/
structure AuthCtx where
  uid : Option Nat
  email : Option String
  deriving Repr, DecidableEq

/-- A row of `public.subscribers` (`email` is NOT NULL). -/
structure SubscriberRow where
  user_id : Option Nat
  email : String
  subscribed : Bool
  subscription_tier : Option String
  subscription_end : Option Int
  deriving Repr, DecidableEq

/-- Policy "users_can_update_own_subscription" (`USING`): the row's
`user_id` and `email` match the authenticated principal, or the request
runs without `auth.uid()` (service role). -/
def subscribersUpdateUsing (a : AuthCtx) (r : SubscriberRow) : Bool :=
  (sqlEq r.user_id a.uid && sqlEq (some r.email) a.email) || a.uid == none

/-- Trigger `validate_subscriber_user_match` on INSERT/UPDATE of
`public.subscribers`, as a boolean: `true` when the trigger lets `NEW`
through, `false` when it raises.  Service-role requests skip validation;
otherwise a non-`NULL` `NEW.user_id` must equal `auth.uid()` and
`NEW.email` must equal `auth.email()` (a `NULL` comparison does not
raise). -/
def validate_subscriber_user_match (a : AuthCtx) (newRow : SubscriberRow) : Bool :=
  if a.uid == none then true
  else if (match newRow.user_id, a.uid with
           | some u, some v => decide (u ≠ v)
           | _, _ => false) then false
  else if (match a.email with
           | some e => decide (newRow.email ≠ e)
           | none => false) then false
  else true

/-- A client UPDATE of a subscriber row goes through when the `USING`
clause accepts the old row, the same clause accepts the new row (the
policy has no `WITH CHECK`, so Postgres re-applies `USING`), and the
validation trigger does not raise. -/
def subscribersUpdatePermitted (a : AuthCtx) (oldRow newRow : SubscriberRow) : Bool :=
  subscribersUpdateUsing a oldRow && subscribersUpdateUsing a newRow
    && validate_subscriber_user_match a newRow

/-- Policy "users_can_insert_own_subscription" (`WITH CHECK`):
`auth.uid() IS NOT NULL AND ((user_id = auth.uid() AND email =
auth.email()) OR (auth.uid() IS NULL AND user_id IS NOT NULL))` — the
second disjunct is unsatisfiable under the outer conjunct and is kept
verbatim. -/
def subscribersInsertWithCheck (a : AuthCtx) (r : SubscriberRow) : Bool :=
  !(a.uid == none)
    && ((sqlEq r.user_id a.uid && sqlEq (some r.email) a.email)
        || (a.uid == none && !(r.user_id == none)))

/-- A client INSERT of a subscriber row: insert policy plus trigger. -/
def subscribersInsertPermitted (a : AuthCtx) (r : SubscriberRow) : Bool :=
  subscribersInsertWithCheck a r && validate_subscriber_user_match a r

/-! ## Teams: invitations, duplicate handling, signup processing -/

/-- A row of `public.team_invitations`. -/
structure TeamInvitationRow where
  id : Nat
  team_id : Nat
  email : String
  role : String
  invited_by : Nat
  status : String
  expires_at : Int
  updated_at : Int
  deriving Repr, DecidableEq

/-- A row of `public.team_members` (`UNIQUE(team_id, user_id)`). -/
structure TeamMemberRow where
  team_id : Nat
  user_id : Nat
  role : String
  deriving Repr, DecidableEq

/-- The tables touched by the add-member flow. -/
structure TeamState where
  profiles : List Profile
  members : List TeamMemberRow
  invitations : List TeamInvitationRow
  deriving Repr, DecidableEq

/-- Outcome of `addTeamMember` in `TeamManagement.tsx`, as surfaced to
the caller. -/
inductive AddMemberResult where
  | alreadyMember
  | invitationAlreadySent
  | memberAdded
  | invitationCreated
  | uniqueViolation
  deriving Repr, DecidableEq

/-- `addTeamMember` (`TeamManagement.tsx`): look up a profile by email;
if one exists and is already a member, stop; otherwise check for an
invitation with `status = 'pending'` for the same team and email (the
check ignores `expires_at`) and stop with a conflict toast when found;
then either add the member directly or INSERT a new invitation, which
the `UNIQUE(team_id, email)` table constraint rejects whenever any
invitation row for the pair exists, whatever its status. -/
def addTeamMember (st : TeamState) (teamId : Nat) (email role : String)
    (now : Int) (newId invitedBy : Nat) : AddMemberResult × TeamState :=
  let existingProfile := st.profiles.find? (fun p => p.email == some email)
  let pendingExists :=
    st.invitations.any fun i =>
      i.team_id == teamId && i.email == email && i.status == "pending"
  match existingProfile with
  | some prof =>
    if st.members.any (fun m => m.team_id == teamId && m.user_id == prof.id) then
      (.alreadyMember, st)
    else if pendingExists then
      (.invitationAlreadySent, st)
    else
      (.memberAdded,
        { st with members := st.members ++ [{ team_id := teamId, user_id := prof.id, role := role }] })
  | none =>
    if pendingExists then
      (.invitationAlreadySent, st)
    else if st.invitations.any (fun i => i.team_id == teamId && i.email == email) then
      (.uniqueViolation, st)
    else
      (.invitationCreated,
        { st with invitations := st.invitations ++
            [{ id := newId, team_id := teamId, email := email, role := role
               invited_by := invitedBy, status := "pending"
               expires_at := now + 7 * 24 * 3600, updated_at := now }] })

/-- The filter of the cursor loop in
`public.process_pending_invitations`: invitation for the new account's
email, still `pending`, `expires_at > now()`. -/
def invMatches (email : String) (now : Int) (inv : TeamInvitationRow) : Bool :=
  inv.email == email && inv.status == "pending" && decide (now < inv.expires_at)

/-- The UPDATE performed on each matching invitation: `status :=
'accepted'`, `updated_at := now()`. -/
def acceptInv (now : Int) (inv : TeamInvitationRow) : TeamInvitationRow :=
  { inv with status := "accepted", updated_at := now }

/-- Effect of `process_pending_invitations` on `team_invitations`: every
matching row is accepted, every other row is untouched. -/
def processInvs (invs : List TeamInvitationRow) (email : String) (now : Int) :
    List TeamInvitationRow :=
  invs.map fun inv => if invMatches email now inv then acceptInv now inv else inv

/-- `INSERT INTO team_members ... ON CONFLICT (team_id, user_id) DO
NOTHING`. -/
def addMember (ms : List TeamMemberRow) (t u : Nat) (role : String) :
    List TeamMemberRow :=
  if ms.any (fun m => m.team_id == t && m.user_id == u) then ms
  else ms ++ [{ team_id := t, user_id := u, role := role }]

/-- Effect of `process_pending_invitations` on `team_members`: one
conflict-tolerant insert per matching invitation, in order. -/
def processMembers (invs : List TeamInvitationRow) (ms : List TeamMemberRow)
    (email : String) (profileId : Nat) (now : Int) : List TeamMemberRow :=
  (invs.filter (invMatches email now)).foldl
    (fun acc inv => addMember acc inv.team_id profileId inv.role) ms

/-- Whether a membership row for the pair is present. -/
def hasMember (ms : List TeamMemberRow) (t u : Nat) : Bool :=
  ms.any fun m => m.team_id == t && m.user_id == u

/-- Number of membership rows for one (team, user) pair. -/
def memberCount (ms : List TeamMemberRow) (t u : Nat) : Nat :=
  (ms.filter fun m => m.team_id == t && m.user_id == u).length

/-! ## AI-analytics quota gate (`IntelligentAnalytics.tsx`) -/

/-- A row of `public.analytics_events` (fields used by the quota). -/
structure AnalyticsEvent where
  user_id : Nat
  event_type : String
  created_at : Int
  deriving Repr, DecidableEq

/-- The per-tier limit set in the component: 0 when not subscribed, 10
for Basic, -1 (unlimited) for Premium/Enterprise, 0 otherwise. -/
def usageLimit (subscribed : Bool) (tier : Option String) : Int :=
  if !subscribed then 0
  else if tier == some "Basic" then 10
  else if tier == some "Premium" || tier == some "Enterprise" then -1
  else 0

/-- The usage query: count of the user's `ai_analysis` events with
`created_at` on or after the first instant of the current calendar
month. -/
def usageCount (events : List AnalyticsEvent) (uid : Nat) (monthStart : Int) : Nat :=
  (events.filter fun e =>
    e.user_id == uid && e.event_type == "ai_analysis"
      && decide (monthStart ≤ e.created_at)).length

/-- `canUseAI` in the component: subscribed, and either unlimited or the
month's count strictly below the limit. -/
def canUseAI (subscribed : Bool) (limit : Int) (count : Nat) : Bool :=
  if !subscribed then false
  else if limit == -1 then true
  else decide ((count : Int) < limit)

/-- User-visible outcome of `analyzeData`. -/
inductive AnalyzeResponse where
  | quotaExceeded
  | complete
  | failed
  deriving Repr, DecidableEq

/-- Result of one `analyzeData` call: the response shown, whether the
paid serverless analysis was invoked, and the event log afterwards. -/
structure AnalyzeOutcome where
  response : AnalyzeResponse
  invoked : Bool
  events : List AnalyticsEvent
  deriving Repr, DecidableEq

/-- `analyzeData` in `IntelligentAnalytics.tsx`: the quota check runs
before the serverless invocation; on a refusal the upgrade toast is
shown and nothing is invoked; on a successful analysis a usage event is
recorded for Basic-tier users only. -/
def analyzeData (uid : Nat) (subscribed : Bool) (tier : Option String)
    (events : List AnalyticsEvent) (monthStart now : Int)
    (callSucceeds : Bool) : AnalyzeOutcome :=
  let limit := usageLimit subscribed tier
  let count := usageCount events uid monthStart
  if !(canUseAI subscribed limit count) then
    { response := .quotaExceeded, invoked := false, events := events }
  else if callSucceeds then
    { response := .complete, invoked := true
      events :=
        if tier == some "Basic" then
          events ++ [{ user_id := uid, event_type := "ai_analysis", created_at := now }]
        else events }
  else
    { response := .failed, invoked := true, events := events }

/-! ## `analyze-feedback` serverless function -/

/-- The per-rating statistics the handler computes before the LLM call.
`averageRating` is kept as the exact pair (sum, count); the source holds
it as a double, which agrees with the rational value for every
comparison the handler performs at realistic sizes. -/
structure FeedbackStats where
  totalFeedback : Nat
  dist1 : Nat
  dist2 : Nat
  dist3 : Nat
  dist4 : Nat
  dist5 : Nat
  pendingCount : Nat
  resolvedCount : Nat
  ratingSum : Int
  deriving Repr, DecidableEq

/-- The `stats` object of the handler. -/
def computeStats (fb : List FeedbackRow) : FeedbackStats :=
  { totalFeedback := fb.length
    dist1 := (fb.filter fun f => f.rating == 1).length
    dist2 := (fb.filter fun f => f.rating == 2).length
    dist3 := (fb.filter fun f => f.rating == 3).length
    dist4 := (fb.filter fun f => f.rating == 4).length
    dist5 := (fb.filter fun f => f.rating == 5).length
    pendingCount := (fb.filter fun f => f.status == "pending").length
    resolvedCount := (fb.filter fun f => f.status == "resolved").length
    ratingSum := (fb.map (·.rating)).sum }

/-- `Math.round((part / total) * 100)` for non-negative arguments:
round-half-up of the exact rational. -/
def pct (part total : Nat) : Nat := (200 * part + total) / (2 * total)

/-- `avg.toFixed(1)` for `avg = sum / len`: tenths rounded half-up, then
rendered with one decimal. -/
def toFixed1 (sum len : Nat) : String :=
  let t := (20 * sum + len) / (2 * len)
  toString (t / 10) ++ "." ++ toString (t % 10)

/-- The `reduce` over `Object.entries(stats.ratingDistribution)` that
names the most common rating: keeps the accumulator only when strictly
greater, so ties go to the later (higher) rating. -/
def mostCommonRating (s : FeedbackStats) : String :=
  (([("2", s.dist2), ("3", s.dist3), ("4", s.dist4), ("5", s.dist5)].foldl
    (fun a b => if a.2 > b.2 then a else b) ("1", s.dist1))).1

/-- The structured insight payload of a response (fields of the JSON
object the handler returns; `stats` is spread in at the end). -/
structure Insights where
  summary : String
  sentimentPositive : Nat
  sentimentNeutral : Nat
  sentimentNegative : Nat
  trends : List String
  recommendations : List String
  keyTopics : List String
  stats : Option FeedbackStats
  deriving Repr, DecidableEq

/-- The locally-computed fallback built in the `catch` of the LLM call:
sentiment percentages from the rating buckets, trend lines and
recommendations derived from the stored ratings.  The source computes
the average-rating comparison and percentages on doubles; they are
modelled exactly over the integers they are built from. -/
def fallbackInsights (fb : List FeedbackRow) : Insights :=
  let stats := computeStats fb
  let n := fb.length
  let positiveCount := (fb.filter fun f => 4 ≤ f.rating).length
  let negativeCount := (fb.filter fun f => f.rating ≤ 2).length
  let neutralCount := n - positiveCount - negativeCount
  { summary := "Analysis of " ++ toString n ++ " feedback responses. Average rating: "
      ++ toFixed1 (stats.ratingSum).toNat n ++ "/5. "
      ++ toString stats.pendingCount ++ " pending responses need attention."
    sentimentPositive := pct positiveCount n
    sentimentNeutral := pct neutralCount n
    sentimentNegative := pct negativeCount n
    trends :=
      [ toString positiveCount ++ " customers gave positive ratings (4-5 stars)"
      , toString negativeCount ++ " customers expressed dissatisfaction (1-2 stars)"
      , toString stats.pendingCount ++ " feedback items are still pending review"
      , "Most common rating: " ++ mostCommonRating stats ++ " stars" ]
    recommendations :=
      [ (if 0 < stats.pendingCount then
           "Address " ++ toString stats.pendingCount ++ " pending feedback items"
         else "Great job keeping up with feedback!")
      , (if stats.ratingSum < 3 * (n : Int) then
           "Focus on improving customer satisfaction - average rating is below 3"
         else "Maintain current service quality")
      , (if 0 < negativeCount then
           "Investigate and resolve issues mentioned in "
             ++ toString negativeCount ++ " negative reviews"
         else "Keep up the excellent work!")
      , "Regularly monitor feedback trends to identify improvement opportunities"
      , "Respond promptly to customer feedback to show you value their input" ]
    keyTopics := ["customer satisfaction", "service quality", "feedback management"]
    stats := none }

/-- The insights returned when the period holds no feedback. -/
def emptyPeriodInsights : Insights :=
  { summary := "No feedback data available for the selected time period."
    sentimentPositive := 0, sentimentNeutral := 0, sentimentNegative := 0
    trends := []
    recommendations := ["Start collecting feedback to generate insights."]
    keyTopics := [], stats := none }

/-- Outcome of the external LLM exchange, one constructor per failure
the inner `try` distinguishes: the fetch itself throwing, a non-OK HTTP
response, a reply whose content does not parse as JSON, or parsed
insights. -/
inductive LLMOutcome where
  | requestError
  | nonOkResponse (body : String)
  | unparseableOutput (raw : String)
  | parsed (ins : Insights)
  deriving Repr, DecidableEq

/-- Whether the exchange counts as a failure of the external service. -/
def llmFailed : LLMOutcome → Bool
  | .parsed _ => false
  | _ => true

/-- The HTTP response of the function, reduced to what the client
observes. -/
structure AnalyzeResult where
  success : Bool
  httpStatus : Nat
  insights : Option Insights
  deriving Repr, DecidableEq

/-- The `serve` handler of `supabase/functions/analyze-feedback`:
a missing API key or a failed feedback query escapes to the outer catch
(HTTP 500, `success: false`); an empty period short-circuits with fixed
insights; otherwise the LLM outcome selects either the parsed insights
or the local fallback, and the response is a 200 with `success: true`
and the stats spread into the insights. -/
def analyzeFeedbackHandler (apiKey : Option String)
    (fetchResult : Except String (List FeedbackRow))
    (llm : LLMOutcome) : AnalyzeResult :=
  match apiKey with
  | none => { success := false, httpStatus := 500, insights := none }
  | some _ =>
    match fetchResult with
    | .error _ => { success := false, httpStatus := 500, insights := none }
    | .ok fb =>
      if fb.isEmpty then
        { success := true, httpStatus := 200, insights := some emptyPeriodInsights }
      else
        let ins :=
          match llm with
          | .parsed i => i
          | _ => fallbackInsights fb
        { success := true, httpStatus := 200
          insights := some { ins with stats := some (computeStats fb) } }

/-! ## Feedback status update (`updateFeedbackStatus`) -/

/-- `updateFeedbackStatus` in the feedback list component: an UPDATE of
`{status, resolved_at}` on the row with the given id, where
`resolved_at` is the current time for `'resolved'` and `NULL` for every
other status; the `BEFORE UPDATE` trigger then sets `updated_at`.
The table CHECK constraint rejects a status outside the enumeration, in
which case no row changes. -/
def updateFeedbackStatus (row : FeedbackRow) (newStatus : String)
    (now : Int) : Option FeedbackRow :=
  if validFeedbackStatus newStatus then
    some { row with
      status := newStatus
      resolved_at := if newStatus == "resolved" then some now else none
      updated_at := now }
  else none

/-! ## Helper lemmas -/

/-- SQL equality against a concrete non-`NULL` value pins the column. -/
theorem sqlEq_eq_some {α : Type} [BEq α] [LawfulBEq α] {x : Option α} {y : α}
    (h : sqlEq x (some y) = true) : x = some y := by
  cases x with
  | none => simp [sqlEq] at h
  | some a => simp [sqlEq] at h; rw [h]

/-- The staff masking never touches `assigned_to`. -/
theorem maskForStaff_assigned (profiles : List Profile) (uid : Option Nat)
    (f : FeedbackRow) :
    (maskForStaff profiles uid f).assigned_to = f.assigned_to := by
  unfold maskForStaff; split <;> rfl

/-- Inside the dedicated staff RPC, a staff caller does receive the
redacted projection on rows they are not assigned to: email and phone
are `NULL`, the name is `NULL` for anonymous rows and `'Customer'`
otherwise.  (This is the behaviour the migration comments promise for
every staff read; the direct-table path below does not deliver it.) -/
theorem get_feedback_for_staff_redacts_unassigned
    (profiles : List Profile) (uid : Option Nat) (rows : List FeedbackRow)
    (g : FeedbackRow) (hrole : getUserRole profiles uid = some "staff")
    (hmem : g ∈ get_feedback_for_staff profiles uid rows)
    (hun : assignedToUser profiles uid g.assigned_to = false) :
    g.customer_email = none ∧ g.customer_phone = none ∧
      g.customer_name = (if g.is_anonymous then none else some "Customer") := by
  have hlist : get_feedback_for_staff profiles uid rows
      = rows.map (maskForStaff profiles uid) := by
    unfold get_feedback_for_staff
    rw [hrole]
    simp
  rw [hlist] at hmem
  obtain ⟨f, hf, hfg⟩ := List.mem_map.mp hmem
  subst hfg
  rw [maskForStaff_assigned] at hun
  unfold maskForStaff
  rw [hun]
  simp

/-! ## Claim theorems -/

/-- C1.  The claim says every read path hands a non-admin, non-manager,
unassigned profile only the redacted projection (null email/phone,
placeholder name).  Evaluating the surviving SELECT policies at a
concrete failing input shows otherwise: a staff profile of branch 1 that
is not assigned to a branch-9 row still receives the row unredacted from
a direct `SELECT` on `feedback`, customer email and phone included,
because the policy "Staff can view limited feedback info" admits the row
and row-level security cannot mask columns — contradicting the
migrations' own stated intent that staff must not see customer personal
details unless assigned. -/
theorem c1_staff_direct_read_returns_full_row :
    getUserRole [staffProfile] (some 20) = some "staff" ∧
    crossBranchRow.assigned_to = none ∧
    sqlEq crossBranchRow.branch_id (getUserBranch [staffProfile] (some 20)) = false ∧
    directFeedbackRead [staffProfile] (some 20) [crossBranchRow] = [crossBranchRow] ∧
    crossBranchRow.customer_email = some "a@b.com" ∧
    crossBranchRow.customer_phone = some "555-0100" ∧
    crossBranchRow.customer_name = some "Alice" := by decide

/-- C2 counterexample.  The claim says a staff profile from Branch A can
never read an entity whose branch is B ≠ A.  Concretely: the staff
profile of branch 1 passes the feedback SELECT boundary for a row of
branch 9. -/
theorem c2_counterexample_staff_reads_other_branch :
    staffProfile.role = "staff" ∧
    staffProfile.branch_id = some 1 ∧
    crossBranchRow.branch_id = some 9 ∧
    canSelectFeedback [staffProfile] (some 20) crossBranchRow = true := by decide

/-- C2 amended.  For feedback, staff read access is role-gated, not
branch-scoped: any staff profile can read rows of any branch; staff
writes remain impossible unless the profile is the row's assignee (the
only UPDATE policy demands assignment or the admin/manager role, and no
DELETE policy exists). -/
theorem c2_amended_staff_feedback_access (profiles : List Profile)
    (uid : Option Nat) (f : FeedbackRow)
    (hrole : getUserRole profiles uid = some "staff") :
    canSelectFeedback profiles uid f = true ∧
      (assignedToUser profiles uid f.assigned_to = false →
        canUpdateFeedback profiles uid f = false) := by
  constructor
  · unfold canSelectFeedback
    rw [hrole]
    simp
  · intro hun
    unfold canUpdateFeedback
    rw [hrole, hun]
    decide

/-- C2 amended, witnessed at the concrete staff profile and cross-branch
row: the read is allowed and the write is denied. -/
theorem c2_amended_witness :
    canSelectFeedback [staffProfile] (some 20) crossBranchRow = true ∧
      canUpdateFeedback [staffProfile] (some 20) crossBranchRow = false := by
  have h := c2_amended_staff_feedback_access [staffProfile] (some 20)
    crossBranchRow (by decide)
  exact ⟨h.1, h.2 (by decide)⟩

/-- Authenticated principal used in the subscriber counterexample. -/
def billingAuth : AuthCtx := { uid := some 7, email := some "user@example.com" }

/-- The principal's own subscriber row before the write. -/
def ownSubscriberRow : SubscriberRow :=
  { user_id := some 7, email := "user@example.com", subscribed := false
    subscription_tier := some "Basic", subscription_end := none }

/-- The same row with all three tier fields rewritten by the client. -/
def upgradedSubscriberRow : SubscriberRow :=
  { ownSubscriberRow with
    subscribed := true
    subscription_tier := some "Premium"
    subscription_end := some 4102444800 }

/-- C3 counterexample.  The claim says no client-issued write can change
`subscription_tier` / `subscribed` / `subscription_end`.  Concretely: an
authenticated user rewrites all three fields of their own subscriber row
and both the UPDATE policy (`users_can_update_own_subscription`) and the
`validate_subscriber_user_match` trigger let the write through, since
they only pin `user_id` and `email`, not the tier columns. -/
theorem c3_counterexample_owner_updates_tier :
    billingAuth.uid = some 7 ∧
    subscribersUpdatePermitted billingAuth ownSubscriberRow upgradedSubscriberRow = true ∧
    upgradedSubscriberRow.subscription_tier ≠ ownSubscriberRow.subscription_tier ∧
    upgradedSubscriberRow.subscribed ≠ ownSubscriberRow.subscribed ∧
    upgradedSubscriberRow.subscription_end ≠ ownSubscriberRow.subscription_end := by
  decide

/-- C3 amended.  A client principal can touch only the subscriber row
whose `user_id` (and `email`) match its own identity: every permitted
client UPDATE has both the old and new row owned by the caller, and
every permitted client INSERT carries the caller's `user_id` — so tier
fields of another user's row are unreachable from any client write,
while the caller's own row (including its tier fields) is writable. -/
theorem c3_amended_client_writes_confined_to_own_row
    (a : AuthCtx) (u : Nat) (oldRow newRow r : SubscriberRow)
    (hauth : a.uid = some u) :
    (subscribersUpdatePermitted a oldRow newRow = true →
        oldRow.user_id = some u ∧ newRow.user_id = some u) ∧
    (subscribersInsertPermitted a r = true → r.user_id = some u) := by
  have hnone : ((some u == (none : Option Nat)) : Bool) = false := rfl
  constructor
  · intro hperm
    unfold subscribersUpdatePermitted subscribersUpdateUsing at hperm
    rw [hauth, hnone] at hperm
    simp only [Bool.or_false, Bool.and_eq_true] at hperm
    exact ⟨sqlEq_eq_some hperm.1.1.1, sqlEq_eq_some hperm.1.2.1⟩
  · intro hperm
    unfold subscribersInsertPermitted subscribersInsertWithCheck at hperm
    rw [hauth, hnone] at hperm
    simp only [Bool.false_and, Bool.or_false, Bool.not_false, Bool.true_and,
      Bool.and_eq_true] at hperm
    exact sqlEq_eq_some hperm.1.1

/-- C3 amended, witnessed: the permitted self-update of `billingAuth` is
confined to rows with `user_id = 7`. -/
theorem c3_amended_witness :
    ownSubscriberRow.user_id = some 7 ∧ upgradedSubscriberRow.user_id = some 7 := by
  have h := c3_amended_client_writes_confined_to_own_row billingAuth 7
    ownSubscriberRow upgradedSubscriberRow ownSubscriberRow rfl
  exact h.1 (by decide)

/-- C4 counterexample.  The claim's acceptance condition (an "iff" over
raw field lengths) holds for a payload whose `customer_name` is two
spaces — the name has 2 ≤ 100 characters — yet the policy rejects the
insert because the trimmed name is empty. -/
theorem c4_counterexample_blank_name :
    blankNamePayload.customer_name = some "  " ∧
    ("  ").length ≤ 100 ∧
    claimedFeedbackAcceptance blankNamePayload = true ∧
    feedbackInsertPolicy blankNamePayload = false ∧
    publicFeedbackInsertAccepted blankNamePayload = false := by decide

/-- C4 amended.  An unauthenticated feedback insert is accepted iff the
subject and message are present, non-blank after trimming and at most
200/2000 raw characters, the rating lies in [1,5], each supplied
customer field is non-blank after trimming with the trimmed name/phone
at most 100/20 characters and the email matching the shape check, and
status/priority are among the CHECK-allowed values; in particular
rating 0 and 6 are rejected and rating 1 and 5 are accepted on an
otherwise-valid payload. -/
theorem c4_amended_validation_characterization :
    (∀ p : FeedbackInsert,
      publicFeedbackInsertAccepted p = true ↔
        ((∃ s, p.subject = some s ∧ 0 < (pgTrim s).length ∧ s.length ≤ 200) ∧
         (∃ m, p.message = some m ∧ 0 < (pgTrim m).length ∧ m.length ≤ 2000) ∧
         1 ≤ p.rating ∧ p.rating ≤ 5 ∧
         (∀ s, p.customer_name = some s →
            0 < (pgTrim s).length ∧ (pgTrim s).length ≤ 100) ∧
         (∀ e, p.customer_email = some e →
            0 < (pgTrim e).length ∧ validate_email_format e = true) ∧
         (∀ s, p.customer_phone = some s →
            0 < (pgTrim s).length ∧ (pgTrim s).length ≤ 20) ∧
         validFeedbackStatus p.status = true ∧
         validFeedbackPriority p.priority = true)) ∧
    publicFeedbackInsertAccepted (ratingProbe 0) = false ∧
    publicFeedbackInsertAccepted (ratingProbe 1) = true ∧
    publicFeedbackInsertAccepted (ratingProbe 5) = true ∧
    publicFeedbackInsertAccepted (ratingProbe 6) = false := by
  refine ⟨fun p => ?_, by decide, by decide, by decide, by decide⟩
  unfold publicFeedbackInsertAccepted feedbackInsertPolicy
  cases hs : p.subject <;> cases hm : p.message <;>
    cases hn : p.customer_name <;> cases he : p.customer_email <;>
      cases hp : p.customer_phone <;>
        simp [hs, hm, hn, he, hp, Bool.and_eq_true, decide_eq_true_eq] <;>
          tauto

/-- A payload that names the customer yet marks itself anonymous. -/
def namedAnonymousPayload : FeedbackInsert :=
  { ratingProbe 4 with customer_name := some "Alice", is_anonymous := true }

/-- C5 counterexample.  The claim says the stored `is_anonymous` always
equals "no customer_name supplied" and cannot be overridden by the
client.  The insert boundary never inspects `is_anonymous`: a direct
client payload carrying a customer name together with
`is_anonymous = true` passes the whole insert validation, so the stored
flag is client-controlled. -/
theorem c5_counterexample_client_overrides_is_anonymous :
    namedAnonymousPayload.customer_name = some "Alice" ∧
    namedAnonymousPayload.is_anonymous = true ∧
    publicFeedbackInsertAccepted namedAnonymousPayload = true := by decide

/-- C5 amended.  The derivation holds for the shipped public form only:
every payload built by `handleSubmit` has `is_anonymous` true exactly
when no customer name was typed (the empty form field coerces to
`NULL`); the insert boundary itself leaves the flag unconstrained. -/
theorem c5_amended_form_derives_is_anonymous
    (subject message : String) (rating : Int) (category branch : Option Nat)
    (name email phone : String) :
    (handleSubmitPayload subject message rating category branch name email phone).is_anonymous
      = decide ((handleSubmitPayload subject message rating category branch
          name email phone).customer_name = none) := by
  unfold handleSubmitPayload
  by_cases h : name = "" <;> simp [h]

/-- An invitation whose `expires_at` (5) is far in the past relative to
the request time (100) but whose status is still `'pending'`, since
nothing in the code ever writes `'expired'`. -/
def expiredInvitation : TeamInvitationRow :=
  { id := 1, team_id := 1, email := "invitee@example.com", role := "member"
    invited_by := 2, status := "pending", expires_at := 5, updated_at := 0 }

/-- State holding only the stale invitation; the invited email has no
profile yet. -/
def staleInviteState : TeamState :=
  { profiles := [], members := [], invitations := [expiredInvitation] }

/-- C6 counterexample.  The claim says a new invitation for the same
(team, email) succeeds once the earlier one has passed `expires_at`.
Concretely: with the expired-but-still-`pending` invitation in place,
the add-member flow still answers "invitation already sent" (its
duplicate check filters on `status = 'pending'` only, never on
`expires_at`) and the state is unchanged. -/
theorem c6_counterexample_expired_invitation_blocks :
    expiredInvitation.expires_at < 100 ∧
    expiredInvitation.status = "pending" ∧
    addTeamMember staleInviteState 1 "invitee@example.com" "member" 100 9 2
      = (.invitationAlreadySent, staleInviteState) := by decide

/-- C6 amended.  While any invitation row for (team, email) exists —
pending or not, expired or not — a new invitation for the pair is never
created and nothing is overwritten: a `'pending'` row trips the
application-level duplicate check (surfaced as the conflict toast), and
any other row trips the `UNIQUE(team_id, email)` constraint. -/
theorem c6_amended_any_existing_invitation_blocks
    (st : TeamState) (teamId : Nat) (email role : String) (now : Int)
    (newId invitedBy : Nat)
    (hnoprof : st.profiles.find? (fun p => p.email == some email) = none)
    (inv : TeamInvitationRow) (hmem : inv ∈ st.invitations)
    (ht : inv.team_id = teamId) (he : inv.email = email) :
    ((addTeamMember st teamId email role now newId invitedBy).1
        = .invitationAlreadySent ∨
     (addTeamMember st teamId email role now newId invitedBy).1
        = .uniqueViolation) ∧
    (addTeamMember st teamId email role now newId invitedBy).2 = st := by
  cases hpend : st.invitations.any
      (fun i => i.team_id == teamId && i.email == email && i.status == "pending") with
  | true => simp [addTeamMember, hnoprof, hpend]
  | false =>
    have hall : st.invitations.any
        (fun i => i.team_id == teamId && i.email == email) = true :=
      List.any_eq_true.mpr ⟨inv, hmem, by simp [ht, he]⟩
    simp [addTeamMember, hnoprof, hpend, hall]

/-- C6 amended, witnessed at the stale-invitation state. -/
theorem c6_amended_witness :
    ((addTeamMember staleInviteState 1 "invitee@example.com" "member" 100 9 2).1
        = AddMemberResult.invitationAlreadySent ∨
     (addTeamMember staleInviteState 1 "invitee@example.com" "member" 100 9 2).1
        = AddMemberResult.uniqueViolation) ∧
    (addTeamMember staleInviteState 1 "invitee@example.com" "member" 100 9 2).2
        = staleInviteState :=
  c6_amended_any_existing_invitation_blocks staleInviteState 1 "invitee@example.com"
    "member" 100 9 2 rfl expiredInvitation (by decide) rfl rfl

/-- Adding a member for a pair already present leaves it present. -/
theorem hasMember_addMember_self (ms : List TeamMemberRow) (t u : Nat) (r : String) :
    hasMember (addMember ms t u r) t u = true := by
  unfold addMember hasMember
  cases h : ms.any (fun m => m.team_id == t && m.user_id == u) with
  | true => simp [h]
  | false => simp [h, List.any_append]

/-- `addMember` never removes an existing membership. -/
theorem hasMember_addMember_mono (ms : List TeamMemberRow) (t u t2 u2 : Nat)
    (r : String) (h : hasMember ms t u = true) :
    hasMember (addMember ms t2 u2 r) t u = true := by
  unfold addMember
  cases hc : ms.any (fun m => m.team_id == t2 && m.user_id == u2) with
  | true => simpa [hc] using h
  | false =>
    unfold hasMember at h ⊢
    simp [hc, List.any_append, h]

/-- Membership survives the whole invitation-processing fold. -/
theorem hasMember_fold_mono (l : List TeamInvitationRow) (ms : List TeamMemberRow)
    (pid t u : Nat) (h : hasMember ms t u = true) :
    hasMember (l.foldl (fun acc i => addMember acc i.team_id pid i.role) ms) t u = true := by
  induction l generalizing ms with
  | nil => exact h
  | cons a l ih => exact ih _ (hasMember_addMember_mono _ _ _ _ _ _ h)

/-- Every invitation processed by the fold leaves its (team, profile)
membership present at the end. -/
theorem hasMember_fold_of_mem (l : List TeamInvitationRow) (ms : List TeamMemberRow)
    (pid : Nat) (inv : TeamInvitationRow) (hmem : inv ∈ l) :
    hasMember (l.foldl (fun acc i => addMember acc i.team_id pid i.role) ms)
      inv.team_id pid = true := by
  induction l generalizing ms with
  | nil => cases hmem
  | cons a l ih =>
    rcases List.mem_cons.mp hmem with rfl | hmem2
    · exact hasMember_fold_mono l _ pid _ _ (hasMember_addMember_self ms _ pid _)
    · exact ih _ hmem2

/-- The conflict-tolerant insert keeps every (team, user) pair at one
membership row at most. -/
theorem memberCount_addMember (ms : List TeamMemberRow) (t u t2 u2 : Nat)
    (r : String) (h : memberCount ms t u ≤ 1) :
    memberCount (addMember ms t2 u2 r) t u ≤ 1 := by
  unfold addMember
  cases hc : ms.any (fun m => m.team_id == t2 && m.user_id == u2) with
  | true => simpa [hc] using h
  | false =>
    by_cases hrow : t2 = t ∧ u2 = u
    · obtain ⟨rfl, rfl⟩ := hrow
      have h0 : memberCount ms t2 u2 = 0 := by
        unfold memberCount
        rw [List.length_eq_zero, List.filter_eq_nil_iff]
        intro m hm
        have := List.any_eq_false.mp hc m hm
        simpa using this
      unfold memberCount at h0 ⊢
      simp [hc, List.filter_append, h0]
    · unfold memberCount at h ⊢
      have hrowne : (({ team_id := t2, user_id := u2, role := r } :
          TeamMemberRow).team_id == t &&
          ({ team_id := t2, user_id := u2, role := r } : TeamMemberRow).user_id == u)
            = false := by
        simp only [Bool.and_eq_false_iff]
        rcases not_and_or.mp hrow with h1 | h1
        · exact Or.inl (by simpa using h1)
        · exact Or.inr (by simpa using h1)
      simp [hc, List.filter_append, hrowne, h]

/-- The at-most-one-membership bound is preserved by the whole fold. -/
theorem memberCount_fold (l : List TeamInvitationRow) (ms : List TeamMemberRow)
    (pid t u : Nat) (h : memberCount ms t u ≤ 1) :
    memberCount (l.foldl (fun acc i => addMember acc i.team_id pid i.role) ms) t u ≤ 1 := by
  induction l generalizing ms with
  | nil => exact h
  | cons a l ih => exact ih _ (memberCount_addMember _ _ _ _ _ _ h)

/-- C7.  When an account signs up with email E, every invitation for E
that is `pending` and unexpired is marked accepted and yields a
membership row for (its team, the new profile); invitations that are
expired or not pending come through unchanged; and no (team, user) pair
ever holds more than one membership row, so each invitation converts to
at most one team member. -/
theorem c7_signup_accepts_pending_unexpired_invitations
    (invs : List TeamInvitationRow) (members : List TeamMemberRow)
    (email : String) (profileId : Nat) (now : Int) :
    (∀ inv ∈ invs, invMatches email now inv = true →
        acceptInv now inv ∈ processInvs invs email now ∧
        hasMember (processMembers invs members email profileId now)
          inv.team_id profileId = true) ∧
    (∀ inv ∈ invs, invMatches email now inv = false →
        inv ∈ processInvs invs email now) ∧
    (∀ t u, memberCount members t u ≤ 1 →
        memberCount (processMembers invs members email profileId now) t u ≤ 1) := by
  refine ⟨?_, ?_, ?_⟩
  · intro inv hmem hmatch
    refine ⟨List.mem_map.mpr ⟨inv, hmem, by simp [hmatch]⟩, ?_⟩
    unfold processMembers
    exact hasMember_fold_of_mem _ _ _ _ (List.mem_filter.mpr ⟨hmem, hmatch⟩)
  · intro inv hmem hmatch
    exact List.mem_map.mpr ⟨inv, hmem, by simp [hmatch]⟩
  · intro t u h
    unfold processMembers
    exact memberCount_fold _ _ _ _ _ h

/-- A live pending invitation used to witness the signup processing. -/
def signupInvitation : TeamInvitationRow :=
  { id := 3, team_id := 4, email := "new@example.com", role := "member"
    invited_by := 2, status := "pending", expires_at := 1000, updated_at := 0 }

/-- C7 witnessed at a concrete signup: the live invitation is accepted,
the member row appears, and the pair stays unique. -/
theorem c7_witness :
    acceptInv 10 signupInvitation ∈ processInvs [signupInvitation] "new@example.com" 10 ∧
    hasMember (processMembers [signupInvitation] [] "new@example.com" 77 10) 4 77 = true ∧
    memberCount (processMembers [signupInvitation] [] "new@example.com" 77 10) 4 77 ≤ 1 := by
  have h := c7_signup_accepts_pending_unexpired_invitations [signupInvitation] []
    "new@example.com" 77 10
  have h1 := h.1 signupInvitation (by decide) (by decide)
  exact ⟨h1.1, h1.2, h.2.2 4 77 (by decide)⟩

/-- C8.  For a subscribed Basic-tier user, one analytics request counts
the month's `ai_analysis` events and compares against the quota of 10
before anything is invoked: at or over quota the response is the
quota-exceeded upgrade prompt, the serverless analysis is not invoked
and the event log is untouched; under quota the analysis is invoked and
a successful run appends one usage event, raising the month's count by
one. -/
theorem c8_basic_tier_quota_gate (uid : Nat) (events : List AnalyticsEvent)
    (monthStart now : Int) (callSucceeds : Bool) :
    (10 ≤ usageCount events uid monthStart →
        analyzeData uid true (some "Basic") events monthStart now callSucceeds
          = { response := .quotaExceeded, invoked := false, events := events }) ∧
    (usageCount events uid monthStart < 10 →
        (analyzeData uid true (some "Basic") events monthStart now callSucceeds).invoked
            = true ∧
        (callSucceeds = true → monthStart ≤ now →
          usageCount (analyzeData uid true (some "Basic") events monthStart now
              callSucceeds).events uid monthStart
            = usageCount events uid monthStart + 1)) := by
  have hcan : ∀ c : Nat, canUseAI true 10 c = decide ((c : Int) < 10) := fun c => rfl
  have hlim : usageLimit true (some "Basic") = 10 := by decide
  constructor
  · intro h
    have hcond : (!(canUseAI true (usageLimit true (some "Basic"))
        (usageCount events uid monthStart))) = true := by
      rw [hlim, hcan]
      simp only [Bool.not_eq_true', decide_eq_false_iff_not]
      omega
    simp only [analyzeData, hcond, if_true]
  · intro h
    have hcond : (!(canUseAI true (usageLimit true (some "Basic"))
        (usageCount events uid monthStart))) = false := by
      rw [hlim, hcan]
      simp only [Bool.not_eq_false', decide_eq_true_eq]
      omega
    refine ⟨?_, ?_⟩
    · simp only [analyzeData, hcond, Bool.false_eq_true, if_false]
      cases callSucceeds <;> rfl
    · intro hcs hmn
      subst hcs
      simp only [analyzeData, hcond, Bool.false_eq_true, if_false, if_true,
        beq_self_eq_true]
      unfold usageCount
      rw [List.filter_append]
      simp [hmn]

/-- One month's worth of recorded Basic-tier analyses for user 7. -/
def fullQuotaLog : List AnalyticsEvent :=
  List.replicate 10 { user_id := 7, event_type := "ai_analysis", created_at := 50 }

/-- C8 witnessed: with ten events already this month the request is
refused without invocation; with an empty log the analysis runs and the
success appends one usage event. -/
theorem c8_witness :
    analyzeData 7 true (some "Basic") fullQuotaLog 0 60 true
      = { response := .quotaExceeded, invoked := false, events := fullQuotaLog } ∧
    (analyzeData 7 true (some "Basic") [] 0 60 true).invoked = true ∧
    usageCount (analyzeData 7 true (some "Basic") [] 0 60 true).events 7 0
      = usageCount ([] : List AnalyticsEvent) 7 0 + 1 := by
  have hfull := c8_basic_tier_quota_gate 7 fullQuotaLog 0 60 true
  have hempty := c8_basic_tier_quota_gate 7 ([] : List AnalyticsEvent) 0 60 true
  exact ⟨hfull.1 (by decide), (hempty.2 (by decide)).1,
    (hempty.2 (by decide)).2 rfl (by decide)⟩

/-- C9.  Whenever the LLM exchange fails — the request throws, the
response is non-OK, or its content is unparseable — a request that
reached the LLM call (key present, feedback fetched, period non-empty)
still ends in an HTTP 200 with `success: true` carrying the
locally-computed fallback insights plus the stats, never a hard error. -/
theorem c9_llm_failure_returns_fallback_success
    (key : String) (fb : List FeedbackRow) (llm : LLMOutcome)
    (hfb : fb ≠ []) (hfail : llmFailed llm = true) :
    analyzeFeedbackHandler (some key) (.ok fb) llm =
      { success := true, httpStatus := 200
        insights := some { fallbackInsights fb with stats := some (computeStats fb) } } := by
  unfold analyzeFeedbackHandler
  cases fb with
  | nil => exact absurd rfl hfb
  | cons a t =>
    cases llm with
    | parsed i => simp [llmFailed] at hfail
    | requestError => rfl
    | nonOkResponse b => rfl
    | unparseableOutput r => rfl

/-- C9 witnessed at a one-row dataset and a thrown fetch. -/
theorem c9_witness :
    analyzeFeedbackHandler (some "k") (.ok [crossBranchRow]) .requestError
      = { success := true, httpStatus := 200
          insights := some { fallbackInsights [crossBranchRow] with
            stats := some (computeStats [crossBranchRow]) } } :=
  c9_llm_failure_returns_fallback_success "k" [crossBranchRow] .requestError
    (by decide) rfl

/-- C10.  A status update with any CHECK-allowed status yields a row
whose status is the new one, whose `resolved_at` is the current time
exactly for `'resolved'` and `NULL` for every other status (so leaving
`'resolved'` clears the timestamp), whose `updated_at` is refreshed by
the trigger, and whose every other field is unchanged. -/
theorem c10_update_feedback_status_frame (row : FeedbackRow) (s : String) (now : Int)
    (hs : validFeedbackStatus s = true) :
    ∃ r2, updateFeedbackStatus row s now = some r2 ∧
      r2.status = s ∧
      r2.resolved_at = (if s = "resolved" then some now else none) ∧
      r2.updated_at = now ∧
      r2.id = row.id ∧ r2.customer_name = row.customer_name ∧
      r2.customer_email = row.customer_email ∧ r2.customer_phone = row.customer_phone ∧
      r2.category_id = row.category_id ∧ r2.branch_id = row.branch_id ∧
      r2.rating = row.rating ∧ r2.subject = row.subject ∧
      r2.message = row.message ∧ r2.priority = row.priority ∧
      r2.is_anonymous = row.is_anonymous ∧ r2.assigned_to = row.assigned_to ∧
      r2.created_at = row.created_at := by
  unfold updateFeedbackStatus
  rw [hs]
  refine ⟨_, rfl, ?_⟩
  by_cases h : s = "resolved" <;> simp [h]

/-- C10 witnessed: moving the resolved-at-123 row back to
`'in_progress'` keeps every other field and clears the timestamp. -/
theorem c10_witness :
    validFeedbackStatus "in_progress" = true ∧
    (∃ r2, updateFeedbackStatus crossBranchRow "in_progress" 123 = some r2 ∧
      r2.status = "in_progress" ∧
      r2.resolved_at = (if "in_progress" = "resolved" then some 123 else none) ∧
      r2.updated_at = 123 ∧
      r2.id = crossBranchRow.id ∧ r2.customer_name = crossBranchRow.customer_name ∧
      r2.customer_email = crossBranchRow.customer_email ∧
      r2.customer_phone = crossBranchRow.customer_phone ∧
      r2.category_id = crossBranchRow.category_id ∧
      r2.branch_id = crossBranchRow.branch_id ∧
      r2.rating = crossBranchRow.rating ∧ r2.subject = crossBranchRow.subject ∧
      r2.message = crossBranchRow.message ∧ r2.priority = crossBranchRow.priority ∧
      r2.is_anonymous = crossBranchRow.is_anonymous ∧
      r2.assigned_to = crossBranchRow.assigned_to ∧
      r2.created_at = crossBranchRow.created_at) :=
  ⟨by decide, c10_update_feedback_status_frame crossBranchRow "in_progress" 123 (by decide)⟩

end FFG
